import Mathlib

/-!
Verification of the admin-dashboard repository's behavioral specification.

The definitions below are a shallow embedding of the TypeScript sources:
mock datasets are transcribed verbatim, page filter functions mirror the
`Array.prototype.filter` predicates, the Redux UI slice becomes pure state
transitions, and the RTK Query endpoint configuration becomes a table of
endpoint descriptors.  JavaScript string operations are modelled on ASCII
data: `toLowerCase` is `String.jsLowered`, `includes` is infix containment
on the character list.
-/

/-- Character-list prefix test (helper for substring containment). -/
def charsAtHead : List Char → List Char → Bool
  | [], _ => true
  | _ :: _, [] => false
  | a :: as, b :: bs => a == b && charsAtHead as bs

/-- Character-list infix test: does the first list occur contiguously in the
second?  The empty list occurs in everything. -/
def charsInside : List Char → List Char → Bool
  | [], _ => true
  | _ :: _, [] => false
  | needle, b :: bs => charsAtHead needle (b :: bs) || charsInside needle bs

/-- JavaScript `s.toLowerCase()` on ASCII data: lowercase each character. -/
def String.jsLowered (s : String) : String :=
  String.mk (s.data.map Char.toLower)

/-- JavaScript `hay.includes(needle)`: substring containment. -/
def jsIncludes (hay needle : String) : Bool :=
  charsInside needle.data hay.data

/-- Order record shape from `Dashboard.tsx` (`ordersData` entries). -/
structure Order where
  id : String
  customer : String
  date : String
  total : String
  status : String
  email : String
  items : Nat
  payment : String
deriving DecidableEq

/-- The mock `ordersData` array from `Dashboard.tsx`, transcribed verbatim. -/
def ordersData : List Order :=
  [ ⟨"ORD-001234", "Sarah Johnson", "2025-11-22", "€299.99", "Delivered",
      "sarah.jemail.com", 3, "Credit Card"⟩,
    ⟨"ORD-001235", "Michael Chen", "2025-11-22", "€449.99", "Pending",
      "m.chenemail.com", 1, "PayPal"⟩,
    ⟨"ORD-001236", "Emily Davis", "2025-11-21", "€89.99", "Delivered",
      "emily.demail.com", 2, "Credit Card"⟩,
    ⟨"ORD-001237", "James Wilson", "2025-11-21", "€159.99", "Failed",
      "j.wilsonemail.com", 1, "Credit Card"⟩,
    ⟨"ORD-001238", "Amanda Brown", "2025-11-20", "€189.99", "Processing",
      "amanda.bemail.com", 4, "Debit Card"⟩,
    ⟨"ORD-001239", "Robert Taylor", "2025-11-20", "€549.99", "Delivered",
      "rob.tayloremail.com", 2, "Credit Card"⟩,
    ⟨"ORD-001240", "Lisa Martinez", "2025-11-19", "€329.99", "Pending",
      "lisa.memail.com", 3, "PayPal"⟩,
    ⟨"ORD-001241", "David Anderson", "2025-11-19", "€799.99", "Delivered",
      "d.andersonemail.com", 5, "Credit Card"⟩ ]

/-- The per-order predicate of `filteredOrders` in `Dashboard.tsx`:
`matchesStatus && matchesSearch`, where `matchesStatus` short-circuits on
the sentinel `"all"` and otherwise compares lowered status strings, and
`matchesSearch` checks the lowered id or customer against the lowered
search query. -/
def orderMatches (statusFilter searchQuery : String) (o : Order) : Bool :=
  (statusFilter == "all" || o.status.jsLowered == statusFilter.jsLowered) &&
  (jsIncludes o.id.jsLowered searchQuery.jsLowered ||
    jsIncludes o.customer.jsLowered searchQuery.jsLowered)

/-- `filteredOrders` from the Orders page in `Dashboard.tsx`. -/
def filteredOrders (statusFilter searchQuery : String) : List Order :=
  ordersData.filter (orderMatches statusFilter searchQuery)

/-- Product record shape from `Products.tsx` (`productsData` entries). -/
structure Product where
  id : String
  name : String
  category : String
  price : String
  stock : Nat
  sales : Nat
  status : String
deriving DecidableEq

/-- The mock `productsData` array from `Products.tsx`, transcribed verbatim. -/
def productsData : List Product :=
  [ ⟨"PRD-001", "Premium Wireless Headphones", "Electronics", "€299.99", 45, 234, "Active"⟩,
    ⟨"PRD-002", "Smart Watch Series 5", "Electronics", "€449.99", 23, 189, "Active"⟩,
    ⟨"PRD-003", "Laptop Stand Pro", "Accessories", "€89.99", 67, 456, "Active"⟩,
    ⟨"PRD-004", "4K Webcam", "Electronics", "€159.99", 0, 123, "Out of Stock"⟩,
    ⟨"PRD-005", "Mechanical Keyboard", "Accessories", "€189.99", 34, 298, "Active"⟩,
    ⟨"PRD-006", "USB-C Hub", "Accessories", "€49.99", 89, 567, "Active"⟩,
    ⟨"PRD-007", "Wireless Mouse", "Accessories", "€39.99", 156, 789, "Active"⟩,
    ⟨"PRD-008", "Monitor 27\"", "Electronics", "€329.99", 12, 145, "Low Stock"⟩ ]

/-- `filteredProducts` from `Products.tsx`: name or category contains the
lowered search query. -/
def filteredProducts (searchQuery : String) : List Product :=
  productsData.filter (fun p =>
    jsIncludes p.name.jsLowered searchQuery.jsLowered ||
    jsIncludes p.category.jsLowered searchQuery.jsLowered)

/-- Client record shape from the Clients page (`clientsData` entries). -/
structure Client where
  id : String
  name : String
  email : String
  totalOrders : Nat
  totalSpent : String
  type : String
  lastOrder : String
  status : String
deriving DecidableEq

/-- The mock `clientsData` array from the Clients page, transcribed verbatim. -/
def clientsData : List Client :=
  [ ⟨"CLT-001", "Sarah Johnson", "sarah.jemail.com", 12, "€3,589.88", "Returning", "2025-11-22", "Active"⟩,
    ⟨"CLT-002", "Michael Chen", "m.chenemail.com", 8, "€2,234.92", "Returning", "2025-11-20", "Active"⟩,
    ⟨"CLT-003", "Emily Davis", "emily.demail.com", 1, "€89.99", "New", "2025-11-21", "Active"⟩,
    ⟨"CLT-004", "James Wilson", "j.wilsonemail.com", 25, "€8,945.50", "VIP", "2025-11-22", "Active"⟩,
    ⟨"CLT-005", "Amanda Brown", "amanda.bemail.com", 5, "€1,234.95", "Returning", "2025-11-19", "Active"⟩,
    ⟨"CLT-006", "Robert Taylor", "rob.tayloremail.com", 3, "€789.97", "New", "2025-11-18", "Inactive"⟩,
    ⟨"CLT-007", "Lisa Martinez", "lisa.memail.com", 18, "€5,678.82", "VIP", "2025-11-21", "Active"⟩,
    ⟨"CLT-008", "David Anderson", "d.andersonemail.com", 7, "€1,899.93", "Returning", "2025-11-20", "Active"⟩ ]

/-- `filteredClients` from the Clients page: name or email contains the
lowered search query. -/
def filteredClients (searchQuery : String) : List Client :=
  clientsData.filter (fun c =>
    jsIncludes c.name.jsLowered searchQuery.jsLowered ||
    jsIncludes c.email.jsLowered searchQuery.jsLowered)

/-- Spec-side search semantics (§8 of the spec): the subset of a dataset
whose relevant fields contain the case-folded query as a substring. -/
def searchFilter {α : Type} (fields : α → List String) (q : String)
    (l : List α) : List α :=
  l.filter (fun x => (fields x).any (fun f => jsIncludes f.jsLowered q.jsLowered))

/-- The Orders search fields: id and customer. -/
def orderSearchFields (o : Order) : List String := [o.id, o.customer]

/-- The Products search fields: name and category. -/
def productSearchFields (p : Product) : List String := [p.name, p.category]

/-- The Clients search fields: name and email. -/
def clientSearchFields (c : Client) : List String := [c.name, c.email]

/-- The UI slice state from `uiSlice` (`store/slices/uiSlice`).  At runtime
the store performs no validation of `currentPage`, so the page field is
modelled as an arbitrary string (the `PageType` union is erased by the
TypeScript compiler). -/
structure UIState where
  currentPage : String
  sidebarCollapsed : Bool
  isDarkMode : Bool
  mobileMenuOpen : Bool
deriving DecidableEq

/-- `initialState` of the UI slice. -/
def initialState : UIState :=
  { currentPage := "dashboard", sidebarCollapsed := false,
    isDarkMode := false, mobileMenuOpen := false }

/-- Reducer `setCurrentPage`: stores the payload. -/
def setCurrentPage (s : UIState) (page : String) : UIState :=
  { s with currentPage := page }

/-- Reducer `toggleSidebar`: negates `sidebarCollapsed`. -/
def toggleSidebar (s : UIState) : UIState :=
  { s with sidebarCollapsed := !s.sidebarCollapsed }

/-- Reducer `setSidebarCollapsed`: stores the payload. -/
def setSidebarCollapsed (s : UIState) (b : Bool) : UIState :=
  { s with sidebarCollapsed := b }

/-- Reducer `toggleTheme`: negates `isDarkMode`. -/
def toggleTheme (s : UIState) : UIState :=
  { s with isDarkMode := !s.isDarkMode }

/-- Reducer `setTheme`: stores the payload. -/
def setTheme (s : UIState) (b : Bool) : UIState :=
  { s with isDarkMode := b }

/-- Reducer `toggleMobileMenu`: negates `mobileMenuOpen`. -/
def toggleMobileMenu (s : UIState) : UIState :=
  { s with mobileMenuOpen := !s.mobileMenuOpen }

/-- Reducer `setMobileMenuOpen`: stores the payload. -/
def setMobileMenuOpen (s : UIState) (b : Bool) : UIState :=
  { s with mobileMenuOpen := b }

/-- The seven page components mounted by `App.tsx`. -/
inductive PageComponent where
  | dashboard | orders | products | clients | reports | settings | designSystem
deriving DecidableEq

/-- The `PAGE_COMPONENTS` record from `App.tsx`, as an association table. -/
def pageTable : List (String × PageComponent) :=
  [ ("dashboard", .dashboard), ("orders", .orders), ("products", .products),
    ("clients", .clients), ("reports", .reports), ("settings", .settings),
    ("design-system", .designSystem) ]

/-- The known page identifiers (the `PageType` union of `App.tsx`). -/
def knownPages : List String := pageTable.map Prod.fst

/-- `currentPageComponent` from `App.tsx`
(`PAGE_COMPONENTS[currentPage] ?? PAGE_COMPONENTS.dashboard`) restricted to
keys that are not `Object.prototype` property names.  On such keys a JS
bracket access yields either the own property or `undefined`, so this
closed lookup with fallback agrees with the program; the unrestricted
bracket-access semantics, including inherited prototype members, is
`renderedLookup` below. -/
def currentPageComponent (page : String) : PageComponent :=
  (pageTable.lookup page).getD PageComponent.dashboard

/-- The property names every plain object literal inherits from
`Object.prototype` (ECMA-262); a bracket access with one of these keys on
`PAGE_COMPONENTS` returns the inherited member, which is not nullish. -/
def objectPrototypeKeys : List String :=
  [ "constructor", "hasOwnProperty", "isPrototypeOf", "propertyIsEnumerable",
    "toLocaleString", "toString", "valueOf", "__proto__",
    "__defineGetter__", "__defineSetter__", "__lookupGetter__",
    "__lookupSetter__" ]

/-- What a JS bracket access on the `PAGE_COMPONENTS` object literal can
produce: an own property (a page component), an inherited
`Object.prototype` member (a function or object, never nullish), or
`undefined`. -/
inductive LookupResult where
  | pageComponent (c : PageComponent)
  | prototypeMember (name : String)
  | undefinedValue
deriving DecidableEq

/-- JS bracket access `PAGE_COMPONENTS[page]`: the own property when the
key is in the literal, otherwise the inherited `Object.prototype` member
when the key names one, otherwise `undefined`. -/
def bracketAccess (page : String) : LookupResult :=
  match pageTable.lookup page with
  | some c => LookupResult.pageComponent c
  | none =>
      if page ∈ objectPrototypeKeys then LookupResult.prototypeMember page
      else LookupResult.undefinedValue

/-- `PAGE_COMPONENTS[currentPage] ?? PAGE_COMPONENTS.dashboard` under the
full bracket-access semantics: `??` substitutes the dashboard component
only when the access produced a nullish value (`undefined`); an inherited
prototype member is not nullish and passes through to the render. -/
def renderedLookup (page : String) : LookupResult :=
  match bracketAccess page with
  | LookupResult.undefinedValue => LookupResult.pageComponent PageComponent.dashboard
  | r => r

/-- The six query endpoints declared in `dashboardApi.ts`. -/
inductive EndpointName where
  | getDashboardData | getOrders | getOrder | getProducts | getClients
  | getReports
deriving DecidableEq

/-- Polling configuration of each endpoint, from `dashboardApi.ts`:
only `getDashboardData` declares `pollingInterval: 30000` (milliseconds,
i.e. 30 seconds); the other five declare none. -/
def pollingInterval : EndpointName → Option Nat
  | .getDashboardData => some 30000
  | _ => none

/-- Modelled from the spec (§4.2, §5): the number of automatic fetches a
cache entry performs during `t` elapsed milliseconds of continuous
subscription with a fixed argument set.  The initial fetch always happens;
a polling endpoint additionally refetches once per full interval; the
polling machinery itself lives in the underlying library and is not in
`src/`. -/
def autoFetchCount (e : EndpointName) (t : Nat) : Nat :=
  match pollingInterval e with
  | none => 1
  | some i => 1 + t / i

/-- Modelled from the spec (§5): applying a completed fetch's response to a
cache entry overwrites the entry's data (last-applied-wins); the update
rule lives in the underlying library and is not in `src/`. -/
def applyFetchResult (_cur : Option String) (resp : String) : Option String :=
  some resp

/-- Modelled from the spec (§5): the data held by a cache entry after a
sequence of fetch completions has been applied in completion order. -/
def cacheAfterCompletions (completions : List String) : Option String :=
  completions.foldl applyFetchResult none

/-- Request headers as a partial map from header name to value. -/
def HeadersMap : Type := String → Option String

/-- `Headers.set`: store a value under a header name. -/
def headersSet (h : HeadersMap) (k v : String) : HeadersMap :=
  fun k2 => if k2 = k then some v else h k2

/-- `prepareHeaders` from `dashboardApi.ts`: read the token stored under
the fixed key `authToken` in local storage (`getItem` returns
`string | null`, modelled as `Option String`) and guard with JS truthiness
(`if (token)`), under which both `null` and the empty string are falsy: a
non-empty stored token sets the `authorization` header to
`Bearer <token>`; a missing or empty-string token leaves the headers
unchanged. -/
def prepareHeaders (storage : String → Option String) (h : HeadersMap) :
    HeadersMap :=
  match storage "authToken" with
  | some t => if t = "" then h else headersSet h "authorization" ("Bearer " ++ t)
  | none => h

/-- The document root's theme-carrying state: the `dark` class and the
`data-theme` attribute. -/
structure DocRoot where
  darkClass : Bool
  dataTheme : String
deriving DecidableEq

/-- The theme `useEffect` body in `Layout.tsx`: set `data-theme` to
`dark`/`light` and add/remove the `dark` class according to `isDarkMode`. -/
def applyThemeEffect (d : DocRoot) (isDarkMode : Bool) : DocRoot :=
  let d1 : DocRoot := { d with dataTheme := if isDarkMode then "dark" else "light" }
  { d1 with darkClass := isDarkMode }

/-- `totalSpent.replace(/[€,]/g, '')` from the Clients detail sheet. -/
def stripCurrency (s : String) : String :=
  String.mk (s.data.filter (fun c => !(c == '€' || c == ',')))

/-- Parse a list of decimal digit characters as a natural number; `none`
when a non-digit occurs. -/
def parseNatDigits (cs : List Char) : Option Nat :=
  cs.foldl
    (fun acc c => acc.bind
      (fun n => if c.isDigit then some (n * 10 + (c.toNat - 48)) else none))
    (some 0)

/-- Split a character list at the first `.` (decimal point), as
`parseFloat` does when reading a decimal literal. -/
def splitAtDot : List Char → List Char × Option (List Char)
  | [] => ([], none)
  | c :: rest =>
      if c == '.' then ([], some rest)
      else
        let p := splitAtDot rest
        (c :: p.1, p.2)

/-- JavaScript `parseFloat` restricted to plain decimal literals such as
`3589.88`, evaluated exactly as a fraction `(numerator, denominator)` of
natural numbers; `none` on inputs with non-digit characters around the
decimal point (never hit by the dataset). -/
def parseDecimalFrac (s : String) : Option (Nat × Nat) :=
  match splitAtDot s.data with
  | (intCs, none) => (parseNatDigits intCs).map (fun i => (i, 1))
  | (intCs, some fracCs) =>
      (parseNatDigits intCs).bind (fun i =>
        (parseNatDigits fracCs).map (fun f =>
          (i * 10 ^ fracCs.length + f, 10 ^ fracCs.length)))

/-- The number of cents that `x.toFixed(2)` renders for the nonnegative
fraction `n / d` (`d > 0`): the nearest multiple of 1/100, half rounded up
(ECMAScript picks the larger candidate on ties), i.e.
`⌊100 * n / d + 1 / 2⌋ = (200 * n + d) / (2 * d)` in integer division. -/
def roundedCents (n d : Nat) : Nat :=
  (200 * n + d) / (2 * d)

/-- Render a number of cents with exactly two decimal places. -/
def formatCents (k : Nat) : String :=
  toString (k / 100) ++ "." ++
    (if k % 100 < 10 then "0" ++ toString (k % 100) else toString (k % 100))

/-- The exact average order value of a client as a fraction: parsed
`totalSpent` divided by `totalOrders`. -/
def avgValue (c : Client) : Option (Nat × Nat) :=
  (parseDecimalFrac (stripCurrency c.totalSpent)).map
    (fun p => (p.1, p.2 * c.totalOrders))

/-- The `Avg Order Value` string displayed in the Clients detail sheet:
`€` followed by the quotient rendered with `toFixed(2)`. -/
def avgOrderValueDisplay (c : Client) : Option String :=
  (avgValue c).map (fun p => "€" ++ formatCents (roundedCents p.1 p.2))

/-- Check that the displayed cents `k` are within half a cent of the exact
average order value `n / d`: both `k/100 - n/d <= 1/200` and
`n/d - k/100 <= 1/200`, cleared of denominators (correct rounding to the
nearest cent). -/
def avgRoundingOk (c : Client) : Bool :=
  match avgValue c with
  | none => false
  | some (n, d) =>
      let k := roundedCents n d
      decide (2 * k * d ≤ 200 * n + d) && decide (200 * n ≤ 2 * k * d + d)

/-- The first client record of `clientsData` (CLT-001, Sarah Johnson). -/
def clientCLT001 : Client :=
  ⟨"CLT-001", "Sarah Johnson", "sarah.jemail.com", 12, "€3,589.88",
    "Returning", "2025-11-22", "Active"⟩

theorem charsInside_nil (l : List Char) : charsInside [] l = true := by
  cases l <;> rfl

theorem jsIncludes_empty (s : String) : jsIncludes s "" = true := by
  show charsInside [] s.data = true
  exact charsInside_nil s.data


theorem lookup_eq_none_iff (l : List (String × PageComponent)) (s : String) :
    l.lookup s = none ↔ ¬ s ∈ l.map Prod.fst := by
  induction l with
  | nil => simp
  | cons kv rest ih =>
      cases kv with
      | mk k v =>
          by_cases h : s = k
          · subst h; simp [List.lookup]
          · have hb : (s == k) = false := by simp [h]
            simp [List.lookup, hb, ih, h]

/-- C1: the claim as stated is false on the code.  With status filter
`"all"` and search query `"sarah"`, the Orders page does not show the
unfiltered dataset (the search still applies); with status `"delivered"`
and the same search it does not show all case-insensitively delivered
orders either. -/
theorem C1_counterexample :
    filteredOrders "all" "sarah" ≠ ordersData ∧
    filteredOrders "delivered" "sarah" ≠
      ordersData.filter (fun o => o.status.jsLowered == "delivered") := by
  constructor <;> decide

/-- C1 (amended): the status filter and the search query combine
conjunctively.  Selecting `"all"` disables only the status criterion, so
the result is the dataset filtered by the search query alone; selecting a
concrete status value with an empty search query returns exactly the
orders whose status equals that value case-insensitively. -/
theorem C1_amended :
    (∀ q, filteredOrders "all" q = searchFilter orderSearchFields q ordersData) ∧
    (∀ st, st ≠ "all" → filteredOrders st "" =
      ordersData.filter (fun o => o.status.jsLowered == st.jsLowered)) := by
  constructor
  · intro q
    apply List.filter_congr
    intro o ho
    simp [orderMatches, searchFilter, orderSearchFields]
  · intro st hst
    apply List.filter_congr
    intro o ho
    have hb : (st == "all") = false := by simp [hst]
    have he : String.jsLowered "" = "" := rfl
    simp [orderMatches, hb, he, jsIncludes_empty]

/-- C1 witness: the amended theorem at status `"pending"`, empty search:
exactly the two `Pending` orders remain. -/
theorem C1_witness :
    filteredOrders "pending" "" =
      ordersData.filter (fun o => o.status.jsLowered == "pending") := by
  have h := C1_amended.2 "pending" (by decide)
  have hl : String.jsLowered "pending" = "pending" := rfl
  rw [h, hl]

/-- C2: on each page the search wiring is exactly the spec's case-folded
substring semantics over that page's fields (Orders: id, customer;
Products: name, category; Clients: name, email; Orders taken with its
status filter at its initial value `"all"`), and the empty query returns
each full dataset unchanged. -/
theorem C2_search_exact :
    (∀ q, filteredOrders "all" q = searchFilter orderSearchFields q ordersData) ∧
    (∀ q, filteredProducts q = searchFilter productSearchFields q productsData) ∧
    (∀ q, filteredClients q = searchFilter clientSearchFields q clientsData) ∧
    filteredOrders "all" "" = ordersData ∧
    filteredProducts "" = productsData ∧
    filteredClients "" = clientsData := by
  refine ⟨?_, ?_, ?_, by decide, by decide, by decide⟩
  · intro q
    apply List.filter_congr
    intro o ho
    simp [orderMatches, searchFilter, orderSearchFields]
  · intro q
    apply List.filter_congr
    intro p hp
    simp [searchFilter, productSearchFields]
  · intro q
    apply List.filter_congr
    intro c hc
    simp [searchFilter, clientSearchFields]

/-- C3: in the spec-modelled cache-entry semantics, applied fetch results
supersede one another in completion order.  When the first-issued fetch
completes after the second-issued one (completion sequence: second's
response, then first's), the final data is the later-completing (first
issued) response; in general the last-applied completion wins. -/
theorem C3_completion_order_wins :
    (∀ firstIssued secondIssued : String,
      cacheAfterCompletions [secondIssued, firstIssued] = some firstIssued) ∧
    (∀ (pre : List String) (lastResp : String),
      cacheAfterCompletions (pre ++ [lastResp]) = some lastResp) := by
  constructor
  · intro a b; rfl
  · intro pre lastResp
    simp [cacheAfterCompletions, List.foldl_append, applyFetchResult]

/-- C4: the claim as stated is false on the code.  `"toString"` is outside
the known page enum, yet the JS bracket access yields the inherited
`Object.prototype.toString` member — not nullish, so `??` never falls back
and the root composition does not render the dashboard page component. -/
theorem C4_counterexample :
    knownPages.contains "toString" = false ∧
    renderedLookup "toString" = LookupResult.prototypeMember "toString" ∧
    renderedLookup "toString" ≠
      LookupResult.pageComponent PageComponent.dashboard := by
  refine ⟨by decide, by decide, by decide⟩

/-- C4 (amended): the root composition resolves exactly one value per
`currentPage` string: a known page id renders its own page component; an
unknown id that is not an `Object.prototype` property name falls back to
the dashboard component; but an unknown id naming an inherited
`Object.prototype` member (e.g. `"toString"`, `"constructor"`) yields that
member instead of the dashboard fallback. -/
theorem C4_page_lookup_amended (s : String) :
    (∀ c, pageTable.lookup s = some c →
      renderedLookup s = LookupResult.pageComponent c) ∧
    (¬ s ∈ knownPages → ¬ s ∈ objectPrototypeKeys →
      renderedLookup s = LookupResult.pageComponent PageComponent.dashboard) ∧
    (¬ s ∈ knownPages → s ∈ objectPrototypeKeys →
      renderedLookup s = LookupResult.prototypeMember s) := by
  refine ⟨?_, ?_, ?_⟩
  · intro c h
    simp [renderedLookup, bracketAccess, h]
  · intro hpage hproto
    have h : pageTable.lookup s = none :=
      (lookup_eq_none_iff pageTable s).mpr hpage
    simp [renderedLookup, bracketAccess, h, hproto]
  · intro hpage hproto
    have h : pageTable.lookup s = none :=
      (lookup_eq_none_iff pageTable s).mpr hpage
    simp [renderedLookup, bracketAccess, h, hproto]

/-- C4 witness: a known page resolves to its own component, an unknown
non-prototype page value falls back to the dashboard component, and an
unknown prototype-key value yields the inherited member. -/
theorem C4_witness :
    renderedLookup "settings" = LookupResult.pageComponent PageComponent.settings ∧
    renderedLookup "not-a-page" =
      LookupResult.pageComponent PageComponent.dashboard ∧
    renderedLookup "valueOf" = LookupResult.prototypeMember "valueOf" := by
  refine ⟨?_, ?_, ?_⟩
  · exact (C4_page_lookup_amended "settings").1 PageComponent.settings (by decide)
  · exact (C4_page_lookup_amended "not-a-page").2.1 (by decide) (by decide)
  · exact (C4_page_lookup_amended "valueOf").2.2 (by decide) (by decide)

/-- C5: among the six endpoints of `dashboardApi.ts`, exactly
`getDashboardData` declares a polling interval (30000 ms = 30 s); under
the spec-modelled subscription semantics it refetches once per full
interval while subscribed, and each of the other five endpoints performs
exactly one automatic fetch per argument set no matter how long it stays
subscribed. -/
theorem C5_polling_only_dashboard :
    pollingInterval EndpointName.getDashboardData = some 30000 ∧
    (∀ e, e ≠ EndpointName.getDashboardData → pollingInterval e = none) ∧
    (∀ n, autoFetchCount EndpointName.getDashboardData (30000 * n) = n + 1) ∧
    (∀ e t, e ≠ EndpointName.getDashboardData → autoFetchCount e t = 1) := by
  refine ⟨rfl, ?_, ?_, ?_⟩
  · intro e he
    cases e <;> simp_all [pollingInterval]
  · intro n
    show 1 + 30000 * n / 30000 = n + 1
    rw [Nat.mul_div_cancel_left n (by norm_num)]
    omega
  · intro e t he
    cases e <;> simp_all [autoFetchCount, pollingInterval]

/-- C5 witness: after three full intervals the dashboard entry has fetched
four times; a non-polling endpoint still has a single automatic fetch. -/
theorem C5_witness :
    autoFetchCount EndpointName.getDashboardData (30000 * 3) = 3 + 1 ∧
    pollingInterval EndpointName.getOrders = none ∧
    autoFetchCount EndpointName.getProducts 987654 = 1 := by
  refine ⟨C5_polling_only_dashboard.2.2.1 3, ?_, ?_⟩
  · exact C5_polling_only_dashboard.2.1 EndpointName.getOrders (by decide)
  · exact C5_polling_only_dashboard.2.2.2 EndpointName.getProducts 987654 (by decide)

/-- C6: each of the seven UI slice transitions is total (a Lean function)
and changes exactly its one target field, leaving the other three fields
unchanged. -/
theorem C6_transitions_frame (s : UIState) (page : String) (b : Bool) :
    (setCurrentPage s page).currentPage = page ∧
    (setCurrentPage s page).sidebarCollapsed = s.sidebarCollapsed ∧
    (setCurrentPage s page).isDarkMode = s.isDarkMode ∧
    (setCurrentPage s page).mobileMenuOpen = s.mobileMenuOpen ∧
    (toggleSidebar s).sidebarCollapsed = !s.sidebarCollapsed ∧
    (toggleSidebar s).currentPage = s.currentPage ∧
    (toggleSidebar s).isDarkMode = s.isDarkMode ∧
    (toggleSidebar s).mobileMenuOpen = s.mobileMenuOpen ∧
    (setSidebarCollapsed s b).sidebarCollapsed = b ∧
    (setSidebarCollapsed s b).currentPage = s.currentPage ∧
    (setSidebarCollapsed s b).isDarkMode = s.isDarkMode ∧
    (setSidebarCollapsed s b).mobileMenuOpen = s.mobileMenuOpen ∧
    (toggleTheme s).isDarkMode = !s.isDarkMode ∧
    (toggleTheme s).currentPage = s.currentPage ∧
    (toggleTheme s).sidebarCollapsed = s.sidebarCollapsed ∧
    (toggleTheme s).mobileMenuOpen = s.mobileMenuOpen ∧
    (setTheme s b).isDarkMode = b ∧
    (setTheme s b).currentPage = s.currentPage ∧
    (setTheme s b).sidebarCollapsed = s.sidebarCollapsed ∧
    (setTheme s b).mobileMenuOpen = s.mobileMenuOpen ∧
    (toggleMobileMenu s).mobileMenuOpen = !s.mobileMenuOpen ∧
    (toggleMobileMenu s).currentPage = s.currentPage ∧
    (toggleMobileMenu s).sidebarCollapsed = s.sidebarCollapsed ∧
    (toggleMobileMenu s).isDarkMode = s.isDarkMode ∧
    (setMobileMenuOpen s b).mobileMenuOpen = b ∧
    (setMobileMenuOpen s b).currentPage = s.currentPage ∧
    (setMobileMenuOpen s b).sidebarCollapsed = s.sidebarCollapsed ∧
    (setMobileMenuOpen s b).isDarkMode = s.isDarkMode :=
  ⟨rfl, rfl, rfl, rfl, rfl, rfl, rfl, rfl, rfl, rfl, rfl, rfl, rfl, rfl,
    rfl, rfl, rfl, rfl, rfl, rfl, rfl, rfl, rfl, rfl, rfl, rfl, rfl, rfl⟩

/-- Local storage holding a token under the fixed key. -/
def storageWithToken : String → Option String :=
  fun k => if k = "authToken" then some "secret-token" else none

/-- Local storage holding no token. -/
def storageWithoutToken : String → Option String := fun _ => none

/-- Local storage holding an empty-string token under the fixed key. -/
def storageEmptyToken : String → Option String :=
  fun k => if k = "authToken" then some "" else none

/-- Empty request headers. -/
def noHeaders : HeadersMap := fun _ => none

/-- C7: the claim as stated is false on the code.  An empty-string token
is present in storage under the fixed key, yet the `if (token)` truthiness
guard skips it, so the request carries no authorization header. -/
theorem C7_counterexample :
    storageEmptyToken "authToken" = some "" ∧
    prepareHeaders storageEmptyToken noHeaders "authorization" = none := by
  constructor
  · decide
  · decide

/-- C7 (amended): every request prepared with a non-empty token stored
under the fixed key carries `authorization: Bearer <token>`; when no token
is stored — and likewise when the stored token is the empty string, which
the `if (token)` truthiness guard treats the same way — the headers pass
through unchanged and the request proceeds unauthenticated without
error. -/
theorem C7_bearer_header :
    (∀ (storage : String → Option String) (h : HeadersMap) (t : String),
      storage "authToken" = some t → t ≠ "" →
      prepareHeaders storage h "authorization" = some ("Bearer " ++ t)) ∧
    (∀ (storage : String → Option String) (h : HeadersMap),
      storage "authToken" = none → prepareHeaders storage h = h) ∧
    (∀ (storage : String → Option String) (h : HeadersMap),
      storage "authToken" = some "" → prepareHeaders storage h = h) := by
  refine ⟨?_, ?_, ?_⟩
  · intro storage h t htok hne
    simp [prepareHeaders, htok, hne, headersSet]
  · intro storage h htok
    simp [prepareHeaders, htok]
  · intro storage h htok
    simp [prepareHeaders, htok]

/-- C7 witness: with a stored non-empty token the header is attached; with
no stored token, and with a stored empty-string token, the headers are
untouched. -/
theorem C7_witness :
    prepareHeaders storageWithToken noHeaders "authorization" =
      some ("Bearer " ++ "secret-token") ∧
    prepareHeaders storageWithoutToken noHeaders = noHeaders ∧
    prepareHeaders storageEmptyToken noHeaders = noHeaders := by
  refine ⟨?_, ?_, ?_⟩
  · exact C7_bearer_header.1 storageWithToken noHeaders "secret-token" rfl
      (by decide)
  · exact C7_bearer_header.2.1 storageWithoutToken noHeaders rfl
  · exact C7_bearer_header.2.2 storageEmptyToken noHeaders rfl

/-- C8: after the theme effect runs for a new `isDarkMode` value produced
by `toggleTheme`, the document root's `dark` class and `data-theme`
attribute are both consistent with the new value; and if the root was
synced before, toggling twice (running the effect after each change)
returns it to its original state. -/
theorem C8_theme_sync (d : DocRoot) (s : UIState) :
    ((applyThemeEffect d (toggleTheme s).isDarkMode).darkClass =
        !s.isDarkMode ∧
      (applyThemeEffect d (toggleTheme s).isDarkMode).dataTheme =
        (if !s.isDarkMode then "dark" else "light")) ∧
    (d.darkClass = s.isDarkMode →
      d.dataTheme = (if s.isDarkMode then "dark" else "light") →
      applyThemeEffect (applyThemeEffect d (toggleTheme s).isDarkMode)
        (toggleTheme (toggleTheme s)).isDarkMode = d) := by
  constructor
  · constructor <;> simp [applyThemeEffect, toggleTheme]
  · intro h1 h2
    cases d with
    | mk dc dt => simp_all [applyThemeEffect, toggleTheme]

/-- C8 witness: starting from a dark-synced root, toggling the theme twice
restores the root exactly. -/
theorem C8_witness :
    applyThemeEffect
      (applyThemeEffect ⟨true, "dark"⟩
        (toggleTheme ⟨"dashboard", false, true, false⟩).isDarkMode)
      (toggleTheme (toggleTheme ⟨"dashboard", false, true, false⟩)).isDarkMode =
      (⟨true, "dark"⟩ : DocRoot) :=
  (C8_theme_sync ⟨true, "dark"⟩ ⟨"dashboard", false, true, false⟩).2 rfl rfl

/-- C9: for the first client (totalSpent `€3,589.88`, totalOrders 12) the
displayed average order value is exactly `€299.16`, and for every client
in the dataset (all of which have nonzero totalOrders) the displayed cents
are the parsed totalSpent divided by totalOrders correctly rounded to the
nearest cent (within half a cent). -/
theorem C9_avg_order_value :
    avgOrderValueDisplay clientCLT001 = some "€299.16" ∧
    ∀ c ∈ clientsData, 0 < c.totalOrders ∧ avgRoundingOk c = true := by
  constructor
  · decide
  · decide

/-- C9 witness: the rounding property evaluated on the first client. -/
theorem C9_witness :
    0 < clientCLT001.totalOrders ∧ avgRoundingOk clientCLT001 = true :=
  C9_avg_order_value.2 clientCLT001 (by decide)

/-- C10: `setCurrentPage` stores its payload verbatim — any string,
including one outside the page enum, lands unchanged in the store — while
the render-time lookup of the root composition, not the store, corrects an
out-of-enum value to the dashboard component. -/
theorem C10_verbatim_store :
    (∀ (s : UIState) (p : String), (setCurrentPage s p).currentPage = p) ∧
    (setCurrentPage initialState "not-a-page").currentPage = "not-a-page" ∧
    knownPages.contains "not-a-page" = false ∧
    currentPageComponent "not-a-page" = PageComponent.dashboard := by
  refine ⟨fun s p => rfl, rfl, by decide, by decide⟩
